import Mathlib

/-!
Verification of the EwUtil Arduino utility header (`src/EwUtil.h`).

The header provides three cores:
* `Periodical` / `PeriodicalBase` — interval-gated callback execution,
* `Timer` — a one-shot / periodic expiry timer state machine,
* `ew::numberOf*` / `ew::fmtElapsed` — duration decomposition and
  template selection for elapsed-time display.

Timestamps come from `millis()`, a free-running `unsigned long`
(32-bit on the target) that wraps from its maximum value to zero.  We
embed `unsigned long` values as `Nat` below `W = 2^32`, with unsigned
modular subtraction made explicit.
-/

namespace EwUtil

/-- Width of the `unsigned long` timestamp counter: `2^32`. -/
def W : Nat := 2 ^ 32

/-- Unsigned modular subtraction `a - b` on `unsigned long`:
the value congruent to `a - b` modulo `W`. -/
def usub (a b : Nat) : Nat := (a % W + (W - b % W)) % W

/-! ## Periodical (dynamic gated callback)

`Periodical` stores a period `m_ms`, the last firing time `m_prev`
(initialised to `0` by the constructor) and a `std::function` action
`m_func`, which may be empty.  We model the stored action by the flag
`hasFunc` (whether `m_func` holds a callable) together with an explicit
action `act` passed to `run`: the action is a state transformer on an
abstract environment `σ` that also observes the `Periodical` object at
the moment it is invoked (a C++ closure may capture `this`).  `run`
returns the new object state, the new environment, and the number of
action invocations performed by this call. -/

structure Periodical where
  ms : Nat
  prev : Nat
  hasFunc : Bool
deriving DecidableEq, Repr

/-- Constructor `Periodical::Periodical(ms, func)`: `m_ms = ms`, `m_prev = 0`. -/
def Periodical.init (ms : Nat) (hasFunc : Bool) : Periodical :=
  { ms := ms, prev := 0, hasFunc := hasFunc }

/-- Embedding of `Periodical::run()`:
```
if (m_func) {
  auto now = millis();
  if (now - m_prev > m_ms) {
    m_prev = now;
    m_func();
  }
}
```
The action runs after the `m_prev = now` assignment, so it observes the
updated object. -/
def Periodical.run {σ : Type} (p : Periodical) (now : Nat)
    (act : σ → Periodical → σ) (env : σ) : Periodical × σ × Nat :=
  if p.hasFunc then
    if usub now p.prev > p.ms then
      let p' := { p with prev := now }
      (p', act env p', 1)
    else (p, env, 0)
  else (p, env, 0)

/-! ## PeriodicalBase (static-dispatch gated callback)

The CRTP variant: the derived class supplies `task()`, which is always
present.  `run` is otherwise identical to `Periodical::run`. -/

structure PeriodicalBase where
  period_ms : Nat
  prev : Nat
deriving DecidableEq, Repr

/-- Constructor `PeriodicalBase::PeriodicalBase(period_ms)`: `m_prev = 0`. -/
def PeriodicalBase.init (period_ms : Nat) : PeriodicalBase :=
  { period_ms := period_ms, prev := 0 }

/-- Embedding of `PeriodicalBase::run()`:
```
auto now = millis();
if (now - m_prev > m_period_ms) {
  m_prev = now;
  static_cast<T*>(this)->task();
}
```
-/
def PeriodicalBase.run {σ : Type} (p : PeriodicalBase) (now : Nat)
    (task : σ → PeriodicalBase → σ) (env : σ) : PeriodicalBase × σ × Nat :=
  if usub now p.prev > p.period_ms then
    let p' := { p with prev := now }
    (p', task env p', 1)
  else (p, env, 0)

/-- Embedding of `PeriodicalBase::setPeriodMs`. -/
def PeriodicalBase.setPeriodMs (p : PeriodicalBase) (ms : Nat) : PeriodicalBase :=
  { p with period_ms := ms }

/-- Embedding of `PeriodicalBase::getPeriodMs`. -/
def PeriodicalBase.getPeriodMs (p : PeriodicalBase) : Nat := p.period_ms

/-! ## Timer -/

inductive Mode where
  | OneShot
  | Periodic
deriving DecidableEq, Repr

structure Timer where
  mode : Mode
  running : Bool
  timeoutMs : Nat
  timerLastMs : Nat
deriving DecidableEq, Repr

/-- Constructor `Timer::Timer(timeout = 0, mode = OneShot)`. -/
def Timer.init (timeout : Nat) (mode : Mode) : Timer :=
  { mode := mode, running := false, timeoutMs := timeout, timerLastMs := 0 }

/-- Embedding of `Timer::expired()`:
```
if (m_running and m_timeoutMs) {
  auto now = millis();
  if (now - m_timerLastMs > m_timeoutMs) {
    if (m_mode == OneShot) { m_running = false; }
    else { m_timerLastMs = now; }
    return true;
  }
}
return false;
```
Returns the updated timer and the boolean result. -/
def Timer.expired (t : Timer) (now : Nat) : Timer × Bool :=
  if t.running = true ∧ t.timeoutMs ≠ 0 then
    if usub now t.timerLastMs > t.timeoutMs then
      if t.mode = Mode.OneShot then
        ({ t with running := false }, true)
      else
        ({ t with timerLastMs := now }, true)
    else (t, false)
  else (t, false)

/-- Embedding of `Timer::start(ms_t timeoutMs)`: records `m_timerLastMs = millis()`,
overwrites the timeout and arms the timer. -/
def Timer.start (t : Timer) (now : Nat) (timeoutMs : Nat) : Timer :=
  { t with timerLastMs := now, timeoutMs := timeoutMs, running := true }

/-- Embedding of `Timer::start(void)`: `start(m_timeoutMs)`. -/
def Timer.startKeep (t : Timer) (now : Nat) : Timer :=
  t.start now t.timeoutMs

/-- Embedding of `Timer::setTimeout`. -/
def Timer.setTimeout (t : Timer) (ms : Nat) : Timer :=
  { t with timeoutMs := ms }

/-- Embedding of `Timer::setMode`. -/
def Timer.setMode (t : Timer) (m : Mode) : Timer :=
  { t with mode := m }

/-- Embedding of `Timer::stop`. -/
def Timer.stop (t : Timer) : Timer :=
  { t with running := false }

/-- Embedding of `Timer::running`. -/
def Timer.isRunning (t : Timer) : Bool := t.running

/-- A sequence of `expired()` polls at the given timestamps: returns the
final timer state and the list of results, in order. -/
def Timer.pollAll (t : Timer) : List Nat → Timer × List Bool
  | [] => (t, [])
  | n :: ns =>
    let r := t.expired n
    let rest := r.1.pollAll ns
    (rest.1, r.2 :: rest.2)

/-! ## Duration decomposition and formatting (`namespace ew`) -/

def SECS_PER_MIN : Nat := 60
def SECS_PER_HOUR : Nat := 3600
def SECS_PER_DAY : Nat := SECS_PER_HOUR * 24

/-- Embedding of `ew::numberOfSeconds`. -/
def numberOfSeconds (seconds : Nat) : Nat := seconds % SECS_PER_MIN

/-- Embedding of `ew::numberOfMinutes`. -/
def numberOfMinutes (seconds : Nat) : Nat := (seconds / SECS_PER_MIN) % SECS_PER_MIN

/-- Embedding of `ew::numberOfHours`. -/
def numberOfHours (seconds : Nat) : Nat := (seconds % SECS_PER_DAY) / SECS_PER_HOUR

/-- Embedding of `ew::numberOfDays`. -/
def numberOfDays (seconds : Nat) : Nat := seconds / SECS_PER_DAY

/-- Which template `ew::fmtElapsed` selects, with the components handed
to it (string rendering by `vsnprintf` is outside the core). -/
inductive FmtBranch where
  | daysFmt (d h m s : Nat)
  | hoursFmt (h m s : Nat)
  | minutesFmt (m s : Nat)
  | secondsFmt (s : Nat)
deriving DecidableEq, Repr

/-- Embedding of `ew::fmtElapsed`:
```
auto d = numberOfDays(seconds); auto h = numberOfHours(seconds);
auto m = numberOfMinutes(seconds); auto s = numberOfSeconds(seconds);
if (d or all)      return prtFmt(str, fmtd, d, h, m, s);
else if (h)        return prtFmt(str, fmth, h, m, s);
else if (m)        return prtFmt(str, fmtm, m, s);
else               return prtFmt(str, fmts, s);
```
-/
def fmtElapsed (seconds : Nat) (all : Bool) : FmtBranch :=
  let d := numberOfDays seconds
  let h := numberOfHours seconds
  let m := numberOfMinutes seconds
  let s := numberOfSeconds seconds
  if d ≠ 0 ∨ all = true then FmtBranch.daysFmt d h m s
  else if h ≠ 0 then FmtBranch.hoursFmt h m s
  else if m ≠ 0 then FmtBranch.minutesFmt m s
  else FmtBranch.secondsFmt s

/-- The template-selection rule exactly as the spec words it
(`Modelled from the spec`, §4.4): days = seconds / 86400,
hours = (seconds mod 86400) / 3600, minutes = (seconds / 60) mod 60,
remainder seconds = seconds mod 60; if `all` is requested OR `days > 0`,
the full day-granularity template; else if `hours > 0`, the hour
template; else if `minutes > 0`, the minute template; else the
seconds-only template. -/
def fmtElapsedSpec (seconds : Nat) (all : Bool) : FmtBranch :=
  let d := seconds / 86400
  let h := (seconds % 86400) / 3600
  let m := (seconds / 60) % 60
  let s := seconds % 60
  if all = true ∨ d > 0 then FmtBranch.daysFmt d h m s
  else if h > 0 then FmtBranch.hoursFmt h m s
  else if m > 0 then FmtBranch.minutesFmt m s
  else FmtBranch.secondsFmt s


/-! ## Helper lemmas -/

/-- A timer that is not running reports false and is unchanged. -/
theorem Timer.expired_of_not_running (t : Timer) (now : Nat)
    (h : t.running = false) : t.expired now = (t, false) := by
  simp [Timer.expired, h]

/-- A timer with zero timeout reports false and is unchanged. -/
theorem Timer.expired_of_timeout_zero (t : Timer) (now : Nat)
    (h : t.timeoutMs = 0) : t.expired now = (t, false) := by
  simp [Timer.expired, h]

/-- If every single poll leaves the timer unchanged and reports false,
so does any sequence of polls. -/
theorem Timer.pollAll_fixed (t : Timer)
    (h : ∀ n, t.expired n = (t, false)) (ns : List Nat) :
    (t.pollAll ns).1 = t ∧ ∀ b ∈ (t.pollAll ns).2, b = false := by
  induction ns with
  | nil => simp [Timer.pollAll]
  | cons n ns ih =>
    simp only [Timer.pollAll, h n]
    refine ⟨ih.1, ?_⟩
    intro b hb
    rcases List.mem_cons.mp hb with hb | hb
    · exact hb
    · exact ih.2 b hb

/-- Unsigned modular subtraction recovers the true elapsed time across
wraparound: if `now` is `e` ticks after `last` on the wrapping counter,
then `now - last` computed modulo `W` equals `e`, for any `e < W`. -/
theorem usub_elapsed (last e : Nat) (hl : last < W) (he : e < W) :
    usub ((last + e) % W) last = e := by
  have hW : 0 < W := by unfold W; norm_num
  unfold usub
  rw [Nat.mod_mod_of_dvd _ dvd_rfl, Nat.mod_eq_of_lt hl]
  rcases Nat.lt_or_ge (last + e) W with h | h
  · rw [Nat.mod_eq_of_lt h]
    have h1 : last + e + (W - last) = e + W := by omega
    rw [h1, Nat.add_mod_right, Nat.mod_eq_of_lt he]
  · have h2 : (last + e) % W = last + e - W := by
      rw [Nat.mod_eq_sub_mod h, Nat.mod_eq_of_lt (by omega)]
    rw [h2]
    have h3 : last + e - W + (W - last) = e := by omega
    rw [h3, Nat.mod_eq_of_lt he]

/-! ## Claim theorems -/

/-- C5: whenever `running` is false or `timeout` equals 0, `expired()`
returns false and changes no state, regardless of elapsed time; in
particular after `setTimeout(0)` every `expired()` call returns false
and leaves the timer unchanged, until a nonzero timeout is set. -/
theorem c5_idle_or_zero_timeout_never_fires (t : Timer) (now : Nat) :
    ((t.running = false ∨ t.timeoutMs = 0) → t.expired now = (t, false)) ∧
    (∀ ns : List Nat, ((t.setTimeout 0).pollAll ns).1 = t.setTimeout 0 ∧
      ∀ b ∈ ((t.setTimeout 0).pollAll ns).2, b = false) := by
  constructor
  · rintro (h | h)
    · exact t.expired_of_not_running now h
    · exact t.expired_of_timeout_zero now h
  · intro ns
    exact (t.setTimeout 0).pollAll_fixed
      (fun n => (t.setTimeout 0).expired_of_timeout_zero n rfl) ns

/-- Witness for C5: a stopped timer with a generous elapsed time still
reports false and is unchanged. -/
theorem c5_idle_or_zero_timeout_never_fires_witness :
    ({ mode := Mode.Periodic, running := false, timeoutMs := 5,
       timerLastMs := 0 } : Timer).expired 1000 =
      ({ mode := Mode.Periodic, running := false, timeoutMs := 5,
         timerLastMs := 0 }, false) :=
  (c5_idle_or_zero_timeout_never_fires _ 1000).1 (Or.inl rfl)

/-- C8: the hours computed as `(seconds mod 86400) / 3600` (as
`numberOfHours` does) equal the hours computed from the residual after
subtracting whole days. -/
theorem c8_hours_residual_equiv (seconds : Nat) :
    numberOfHours seconds = (seconds - 86400 * (seconds / 86400)) / 3600 := by
  have h2 : seconds - 86400 * (seconds / 86400) = seconds % 86400 := by
    have := Nat.div_add_mod seconds 86400
    omega
  rw [h2]
  unfold numberOfHours SECS_PER_DAY SECS_PER_HOUR
  norm_num

/-- C9: a `Periodical` whose stored action is absent is a no-op on
`run`: it returns normally and the object state (including `prev`), the
environment and the invocation count are untouched, regardless of
elapsed time. -/
theorem c9_absent_action_noop {σ : Type} (p : Periodical) (now : Nat)
    (act : σ → Periodical → σ) (env : σ) (h : p.hasFunc = false) :
    p.run now act env = (p, env, 0) := by
  simp [Periodical.run, h]

/-- Witness for C9: an action-less `Periodical` run far past its period
does nothing. -/
theorem c9_absent_action_noop_witness :
    (Periodical.init 100 false).hasFunc = false ∧
    (Periodical.init 100 false).run 5000 (fun (n : Nat) _ => n + 1) 0 =
      (Periodical.init 100 false, 0, 0) :=
  ⟨rfl, c9_absent_action_noop (Periodical.init 100 false) 5000
    (fun n _ => n + 1) 0 rfl⟩

/-- C1: for both gated-callback variants with a configured action, `run`
invokes the action exactly when `(now - last_fired) > period` under
unsigned modular subtraction; a firing call stores `last_fired = now`
before the action runs (the action observes the updated object), a
single call never invokes the action more than once, and a non-firing
call changes nothing. -/
theorem c1_gated_run_fires_iff {σ : Type} (p : Periodical)
    (pb : PeriodicalBase) (now : Nat) (act : σ → Periodical → σ)
    (task : σ → PeriodicalBase → σ) (env : σ) (hact : p.hasFunc = true) :
    ((p.run now act env).2.2 = 1 ↔ usub now p.prev > p.ms) ∧
    (p.run now act env).2.2 ≤ 1 ∧
    ((p.run now act env).2.2 = 1 →
      (p.run now act env).1 = { p with prev := now } ∧
      (p.run now act env).2.1 = act env { p with prev := now }) ∧
    ((p.run now act env).2.2 ≠ 1 → p.run now act env = (p, env, 0)) ∧
    ((pb.run now task env).2.2 = 1 ↔ usub now pb.prev > pb.period_ms) ∧
    (pb.run now task env).2.2 ≤ 1 ∧
    ((pb.run now task env).2.2 = 1 →
      (pb.run now task env).1 = { pb with prev := now } ∧
      (pb.run now task env).2.1 = task env { pb with prev := now }) ∧
    ((pb.run now task env).2.2 ≠ 1 → pb.run now task env = (pb, env, 0)) := by
  unfold Periodical.run PeriodicalBase.run
  simp only [hact, if_true]
  by_cases h1 : usub now p.prev > p.ms <;>
    by_cases h2 : usub now pb.prev > pb.period_ms <;>
      simp [h1, h2]

/-- Witness for C1: a `Periodical` with period 100 and `prev = 0`,
polled at `now = 150`, fires exactly because `150 - 0 > 100`. -/
theorem c1_gated_run_fires_iff_witness :
    (Periodical.init 100 true).hasFunc = true ∧
    (((Periodical.init 100 true).run 150 (fun (n : Nat) _ => n + 1) 0).2.2 = 1 ↔
      usub 150 (Periodical.init 100 true).prev > (Periodical.init 100 true).ms) :=
  ⟨rfl, (c1_gated_run_fires_iff (Periodical.init 100 true)
    (PeriodicalBase.init 100) 150 (fun n _ => n + 1) (fun n _ => n + 1) 0
    rfl).1⟩

/-- C2: timestamps wrap at `W`; the gate computes elapsed time as the
unsigned modular difference `now - last`, so for a true elapsed time
`e < W` with `now = (last + e) % W`, both the `Periodical` gate and
`Timer::expired` fire exactly when `e` exceeds the period — including
when `now` has wrapped past `last`. -/
theorem c2_wraparound_gate {σ : Type} (last e period : Nat)
    (act : σ → Periodical → σ) (env : σ) (m : Mode)
    (hl : last < W) (he : e < W) :
    usub ((last + e) % W) last = e ∧
    ((({ ms := period, prev := last, hasFunc := true } : Periodical).run
        ((last + e) % W) act env).2.2 = 1 ↔ e > period) ∧
    (period ≠ 0 →
      ((({ mode := m, running := true, timeoutMs := period,
           timerLastMs := last } : Timer).expired ((last + e) % W)).2 = true ↔
        e > period)) := by
  have key := usub_elapsed last e hl he
  refine ⟨key, ?_, ?_⟩
  · unfold Periodical.run
    simp only [key]
    by_cases h : e > period <;> simp [h, key]
  · intro hper
    unfold Timer.expired
    cases m <;> by_cases h : e > period <;> simp [key, hper, h]

/-- Witness for C2: `last` ten ticks before overflow, true elapsed 50,
period 30: the wrapped `now` is 40 and the timer fires. -/
theorem c2_wraparound_gate_witness :
    W - 10 < W ∧ (50 : Nat) < W ∧ (30 : Nat) ≠ 0 ∧
    ((({ mode := Mode.OneShot, running := true, timeoutMs := 30,
         timerLastMs := W - 10 } : Timer).expired ((W - 10 + 50) % W)).2 = true ↔
      50 > 30) :=
  ⟨by decide, by decide, by decide,
    (c2_wraparound_gate (W - 10) 50 30 (fun (n : Nat) _ => n + 1) (0 : Nat)
      Mode.OneShot (by decide) (by decide)).2.2 (by decide)⟩

/-- C3: a running OneShot timer with nonzero timeout that observes
`(now - started_at) > timeout` returns true and clears `running`; every
subsequent `expired()` call returns false with no state change until
`start()` is called again. -/
theorem c3_oneshot_fires_once (t : Timer) (now : Nat)
    (hm : t.mode = Mode.OneShot) (hr : t.running = true)
    (ht : t.timeoutMs ≠ 0) (hfire : usub now t.timerLastMs > t.timeoutMs) :
    (t.expired now).2 = true ∧
    (t.expired now).1 = { t with running := false } ∧
    ∀ ns : List Nat, ((t.expired now).1.pollAll ns).1 = (t.expired now).1 ∧
      ∀ b ∈ ((t.expired now).1.pollAll ns).2, b = false := by
  have hstep : t.expired now = ({ t with running := false }, true) := by
    unfold Timer.expired
    simp [hr, ht, hfire, hm]
  refine ⟨by rw [hstep], by rw [hstep], ?_⟩
  intro ns
  rw [hstep]
  exact Timer.pollAll_fixed _ (fun n => Timer.expired_of_not_running _ n rfl) ns

/-- Witness for C3: a OneShot timer with timeout 30 started at 0 and
polled at 100 fires. -/
theorem c3_oneshot_fires_once_witness :
    ({ mode := Mode.OneShot, running := true, timeoutMs := 30,
       timerLastMs := 0 } : Timer).mode = Mode.OneShot ∧
    usub 100 0 > 30 ∧
    (({ mode := Mode.OneShot, running := true, timeoutMs := 30,
        timerLastMs := 0 } : Timer).expired 100).2 = true :=
  ⟨rfl, by decide, (c3_oneshot_fires_once _ 100 rfl rfl (by decide)
    (by decide)).1⟩

/-- C4: a running Periodic timer with nonzero timeout that observes the
gate returns true and rebases `started_at = now` while staying running;
it then returns false (unchanged) while the modular elapsed time from
the rebased point is at most the timeout, and fires and rebases again
once it exceeds it — indefinitely, with no `start()` call needed. -/
theorem c4_periodic_rebases (t : Timer) (now : Nat)
    (hm : t.mode = Mode.Periodic) (hr : t.running = true)
    (ht : t.timeoutMs ≠ 0) (hfire : usub now t.timerLastMs > t.timeoutMs) :
    (t.expired now).2 = true ∧
    (t.expired now).1 = { t with timerLastMs := now } ∧
    (t.expired now).1.running = true ∧
    (∀ later, usub later now ≤ t.timeoutMs →
      ({ t with timerLastMs := now } : Timer).expired later =
        ({ t with timerLastMs := now }, false)) ∧
    (∀ later, usub later now > t.timeoutMs →
      ({ t with timerLastMs := now } : Timer).expired later =
        ({ t with timerLastMs := later }, true)) := by
  have hstep : t.expired now = ({ t with timerLastMs := now }, true) := by
    unfold Timer.expired
    simp [hr, ht, hfire, hm]
  refine ⟨by rw [hstep], by rw [hstep], by rw [hstep]; exact hr, ?_, ?_⟩
  · intro later hle
    unfold Timer.expired
    simp [hr, ht, Nat.not_lt.mpr hle]
  · intro later hgt
    unfold Timer.expired
    simp [hr, ht, hgt, hm]

/-- Witness for C4: a Periodic timer with timeout 30 started at 0 and
polled at 100 fires and rebases to 100. -/
theorem c4_periodic_rebases_witness :
    usub 100 0 > 30 ∧
    (({ mode := Mode.Periodic, running := true, timeoutMs := 30,
        timerLastMs := 0 } : Timer).expired 100).2 = true ∧
    (({ mode := Mode.Periodic, running := true, timeoutMs := 30,
        timerLastMs := 0 } : Timer).expired 100).1 =
      { mode := Mode.Periodic, running := true, timeoutMs := 30,
        timerLastMs := 100 } :=
  ⟨by decide,
    (c4_periodic_rebases _ 100 rfl rfl (by decide) (by decide)).1,
    (c4_periodic_rebases _ 100 rfl rfl (by decide) (by decide)).2.1⟩

/-- C6 as stated fails on the code: `last_fired` is initialised to 0
(the clock epoch), not to the construction time, so a `Periodical`
constructed at clock value 200 with period 100 fires on a first call
made immediately (zero elapsed time since construction). -/
theorem c6_first_call_counterexample :
    ¬ (∀ (period t0 e : Nat), 0 < period → t0 < W → e < W →
        ((((Periodical.init period true).run ((t0 + e) % W)
            (fun (n : Nat) _ => n + 1) 0).2.2 = 1) ↔ e > period)) := by
  intro h
  have h2 := h 100 200 0 (by decide) (by decide) (by decide)
  revert h2
  decide

/-- C6 (amended): for `period_ms > 0`, the action fires on the first
call after construction if and only if the clock reading `now` at that
call exceeds `period_ms` — elapsed time is measured from the clock
epoch 0 (the initial `last_fired`), not from the construction
instant. -/
theorem c6_first_call_fires_iff {σ : Type} (period now : Nat)
    (act : σ → Periodical → σ) (env : σ) (_hp : 0 < period) (hn : now < W) :
    (((Periodical.init period true).run now act env).2.2 = 1 ↔ now > period) := by
  have h0 : usub now 0 = now := by
    unfold usub
    rw [Nat.zero_mod, Nat.sub_zero, Nat.mod_eq_of_lt hn, Nat.add_mod_right,
      Nat.mod_eq_of_lt hn]
  unfold Periodical.run Periodical.init
  simp only [h0]
  by_cases h : now > period <;> simp [h, h0]

/-- Witness for C6 (amended): period 100, first call at clock 150. -/
theorem c6_first_call_fires_iff_witness :
    0 < 100 ∧ 150 < W ∧
    (((Periodical.init 100 true).run 150 (fun (n : Nat) _ => n + 1) 0).2.2 = 1 ↔
      150 > 100) :=
  ⟨by decide, by decide, c6_first_call_fires_iff 100 150 (fun n _ => n + 1) 0
    (by decide) (by decide)⟩

/-- C7: the decomposition quantities and the template-selection rule of
`fmtElapsed` agree exactly with the spec's formulas and branch order,
and `fmtElapsed 30` with the all-flag set takes the day branch with
components days = 0, hours = 0, minutes = 0, seconds = 30. -/
theorem c7_fmtElapsed_selection (seconds : Nat) (all : Bool) :
    numberOfDays seconds = seconds / 86400 ∧
    numberOfHours seconds = (seconds % 86400) / 3600 ∧
    numberOfMinutes seconds = (seconds / 60) % 60 ∧
    numberOfSeconds seconds = seconds % 60 ∧
    fmtElapsed seconds all = fmtElapsedSpec seconds all ∧
    fmtElapsed 30 true = FmtBranch.daysFmt 0 0 0 30 := by
  refine ⟨by norm_num [numberOfDays, SECS_PER_DAY, SECS_PER_HOUR],
    by norm_num [numberOfHours, SECS_PER_DAY, SECS_PER_HOUR],
    rfl, rfl, ?_, by decide⟩
  unfold fmtElapsed fmtElapsedSpec numberOfDays numberOfHours
    numberOfMinutes numberOfSeconds SECS_PER_DAY SECS_PER_HOUR SECS_PER_MIN
  norm_num
  split_ifs <;> simp_all

/-- C10: `running` becomes true only through `start` (including with a
zero timeout) and false only through `stop` or a OneShot expiry;
`setTimeout` and `setMode` never touch it, and a running timer with
timeout 0 stays running forever, with every `expired()` poll in any
sequence returning false and changing nothing. -/
theorem c10_running_flag_control (t : Timer)
    (hr : t.running = true) (hz : t.timeoutMs = 0) :
    (∀ (u : Timer) (now ms : Nat), (u.start now ms).running = true) ∧
    (∀ u : Timer, u.stop.running = false) ∧
    (∀ (u : Timer) (ms : Nat), (u.setTimeout ms).running = u.running) ∧
    (∀ (u : Timer) (m : Mode), (u.setMode m).running = u.running) ∧
    (∀ (u : Timer) (now : Nat), (u.expired now).1.running = u.running ∨
      (u.mode = Mode.OneShot ∧ (u.expired now).2 = true ∧
        (u.expired now).1.running = false)) ∧
    (∀ ns : List Nat, (t.pollAll ns).1 = t ∧
      (t.pollAll ns).1.running = true ∧
      ∀ b ∈ (t.pollAll ns).2, b = false) := by
  refine ⟨fun u now ms => rfl, fun u => rfl, fun u ms => rfl,
    fun u m => rfl, ?_, ?_⟩
  · intro u now
    unfold Timer.expired
    split_ifs with h1 h2 h3
    · exact Or.inr ⟨h3, rfl, rfl⟩
    · exact Or.inl rfl
    · exact Or.inl rfl
    · exact Or.inl rfl
  · intro ns
    have hfix := Timer.pollAll_fixed t
      (fun n => t.expired_of_timeout_zero n hz) ns
    exact ⟨hfix.1, by rw [hfix.1]; exact hr, hfix.2⟩

/-- Witness for C10: a running OneShot timer with timeout 0 is still
running after polls at 5 and 99999. -/
theorem c10_running_flag_control_witness :
    ({ mode := Mode.OneShot, running := true, timeoutMs := 0,
       timerLastMs := 0 } : Timer).running = true ∧
    ({ mode := Mode.OneShot, running := true, timeoutMs := 0,
       timerLastMs := 0 } : Timer).timeoutMs = 0 ∧
    (({ mode := Mode.OneShot, running := true, timeoutMs := 0,
        timerLastMs := 0 } : Timer).pollAll [5, 99999]).1.running = true :=
  ⟨rfl, rfl, ((c10_running_flag_control _ rfl rfl).2.2.2.2.2 [5, 99999]).2.1⟩

end EwUtil
